import Mathlib

set_option autoImplicit false
set_option maxRecDepth 100000

/-!
Shallow embedding of the fast-core-lpis-fr ingestion pipeline
(three nuclio handlers: 00-http-trigger "Resolver", 01-archive-processor
"Processor", 02-datastore-ingestion "Ingestor") together with proofs of
the specification claims.

Python values carried in the JSON bodies, kafka messages and mongo
documents are modelled by the inductive `PyVal`.  Machinery that the
source delegates to libraries (pyproj's `transform`, the kafka producer,
the mongo collection, the filesystem) is modelled at its interface:
`transform` is an abstract function on coordinate pairs, the producer is
an emission trace, the mongo collection is a list of documents with
`replace_one` semantics, and the filesystem walk is summarised by the
per-directory match counts the handler inspects.
-/

/-- A Python/JSON value as used by the three handlers: `None`, integers,
strings, lists and string-keyed dicts (all dicts built by the source are
string-keyed).  Floating point coordinates are represented by `Int`;
every claim treats the numeric transform abstractly, so only the tree
structure of coordinates matters. -/
inductive PyVal where
  | none : PyVal
  | int (n : Int) : PyVal
  | str (s : String) : PyVal
  | list (l : List PyVal) : PyVal
  | dict (d : List (String × PyVal)) : PyVal

/-- Python exceptions that the handlers can raise.  `nuclio` is the
source's `NuclioResponseError` carrying an HTTP status code and message;
the other constructors are the builtin exceptions that reach the generic
`except Exception` clause. -/
inductive PyErr where
  | nuclio (status : Nat) (msg : String) : PyErr
  | keyError : PyErr
  | valueError : PyErr
  | typeError : PyErr
  | attributeError : PyErr
deriving DecidableEq

/-- An HTTP-style response: status code plus body text (bodies are
abbreviated relative to the source's formatted messages; the status
codes are the source's `requests.codes` values: ok=200, bad=400,
internal_server_error=500, unavailable/service_unavailable=503). -/
structure Resp where
  status : Nat
  msg : String
deriving DecidableEq

mutual

/-- Python `==` on the values above: equality on ints and strings,
elementwise on lists and dicts, `False` across types (exactly Python's
behaviour for the comparisons the source performs). -/
def pyEq : PyVal → PyVal → Bool
  | .none, .none => true
  | .int a, .int b => a == b
  | .str a, .str b => a == b
  | .list a, .list b => pyEqList a b
  | .dict a, .dict b => pyEqDict a b
  | _, _ => false

def pyEqList : List PyVal → List PyVal → Bool
  | [], [] => true
  | a :: xs, b :: ys => pyEq a b && pyEqList xs ys
  | _, _ => false

def pyEqDict : List (String × PyVal) → List (String × PyVal) → Bool
  | [], [] => true
  | (k1, v1) :: xs, (k2, v2) :: ys => k1 == k2 && pyEq v1 v2 && pyEqDict xs ys
  | _, _ => false

end

/-- Python `str()` / `"{0}".format()` for the values the source formats
(only ints and strings are formatted on the paths under study; container
renderings are abbreviated). -/
def pyStr : PyVal → String
  | .none => "None"
  | .int n => toString n
  | .str s => s
  | .list _ => "<list>"
  | .dict _ => "<dict>"

/-- Digit run to a natural number. -/
def digitsToNat (cs : List Char) : Nat :=
  cs.foldl (fun acc c => acc * 10 + (c.toNat - '0'.toNat)) 0

/-- Test whether the second character list starts with the first. -/
def listStarts : List Char → List Char → Bool
  | [], _ => true
  | _ :: _, [] => false
  | a :: xs, b :: ys => a == b && listStarts xs ys

/-- Python `s.startswith(pre)` (core `String.startsWith` is opaque to
kernel reduction, so it is implemented over character lists). -/
def sStarts (pre s : String) : Bool := listStarts pre.toList s.toList

/-- Python `s.endswith(suf)`. -/
def sEnds (suf s : String) : Bool := listStarts suf.toList.reverse s.toList.reverse

/-- Python `s.lower()`. -/
def pyLower (s : String) : String := String.mk (s.toList.map Char.toLower)

/-- Splitting accumulator for `splitChar`. -/
def splitCharAux (c : Char) : List Char → List Char → List String
  | [], acc => [String.mk acc.reverse]
  | x :: rest, acc =>
    if x == c then String.mk acc.reverse :: splitCharAux c rest []
    else splitCharAux c rest (x :: acc)

/-- Python `s.split(c)` on a single-character separator. -/
def splitChar (c : Char) (s : String) : List String := splitCharAux c s.toList []

/-- Python `int(s)` on a string: optional surrounding whitespace, an
optional single sign, then one or more ASCII digits; anything else
raises `ValueError`. -/
def parseIntPy (s : String) : Option Int :=
  let cs := s.toList.dropWhile Char.isWhitespace
  let cs := (cs.reverse.dropWhile Char.isWhitespace).reverse
  let core : List Char → Option Int := fun ds =>
    if ds ≠ [] ∧ ds.all Char.isDigit then some (Int.ofNat (digitsToNat ds)) else Option.none
  match cs with
  | '-' :: rest => (core rest).map (fun n => -n)
  | '+' :: rest => core rest
  | rest => core rest

/-- Python `int(v)`: identity on ints, string parsing per `parseIntPy`
(ValueError on failure), TypeError on `None`, lists and dicts. -/
def pyIntFn : PyVal → Except PyErr Int
  | .int n => .ok n
  | .str s =>
    match parseIntPy s with
    | some n => .ok n
    | Option.none => .error .valueError
  | _ => .error .typeError

/-- Lookup in a Python dict (insertion-ordered association list). -/
def dGet (d : List (String × PyVal)) (k : String) : Option PyVal :=
  match d.find? (fun kv => kv.1 == k) with
  | some kv => some kv.2
  | Option.none => Option.none

/-- Python `k in d` for a dict. -/
def dContains (d : List (String × PyVal)) (k : String) : Bool :=
  d.any (fun kv => kv.1 == k)

/-- Python `d[k] = v`: replaces the value in place if the key exists,
otherwise appends (insertion order preserved). -/
def dSet (d : List (String × PyVal)) (k : String) (v : PyVal) : List (String × PyVal) :=
  match d with
  | [] => [(k, v)]
  | (k0, v0) :: rest => if k0 == k then (k0, v) :: rest else (k0, v0) :: dSet rest k v

/-- Python subscript `body[k]` with a string key: dict lookup raising
`KeyError` when absent, `TypeError` on non-subscriptable values (list
subscripts take ints, so a string subscript on a list is a TypeError). -/
def pyGet (v : PyVal) (k : String) : Except PyErr PyVal :=
  match v with
  | .dict d =>
    match dGet d k with
    | some x => .ok x
    | Option.none => .error .keyError
  | _ => .error .typeError

/-- Python `k in v` for a string key: dict key test, list membership
test, substring test on strings, `TypeError` otherwise. -/
def pyContainsKey (v : PyVal) (k : String) : Except PyErr Bool :=
  match v with
  | .dict d => .ok (dContains d k)
  | .list l => .ok (l.any (fun e => pyEq e (.str k)))
  | .str _ => .error .typeError
  | _ => .error .typeError


/-! ## Ingestor (02-datastore-ingestion/handler/main.py)

The mongo collection is modelled as a list of documents; pyproj's
`transform(source_proj, target_proj, x, y)` is modelled by an abstract
function `tr` on coordinate pairs (its numeric behaviour is external
library code; every claim under study concerns only which coordinates it
is applied to). -/

namespace Ingestor

/-- Configuration of the ingestion handler.  `target_crs_epsg_code` is
read by `os.getenv('TARGET_CRS_EPSG_CODE','4326')`, hence always a
Python string. -/
structure Config where
  target_crs_epsg_code : PyVal

/-- Default configuration: the environment variable is unset, so the
target code is the string literal `'4326'`. -/
def default_config : Config := ⟨.str "4326"⟩

/-- Result of pyproj `transform(source_proj, target_proj, *coords)` when
splatting the original coordinate list: on a flat numeric pair it
returns the transformed pair (a 2-tuple, modelled as a 2-list); other
argument shapes fall outside the well-formed coordinate trees the
claims quantify over and are modelled as an error. -/
def transformSplat (tr : Int → Int → Int × Int) : List PyVal → Except Unit PyVal
  | [.int x, .int y] => .ok (.list [.int (tr x y).1, .int (tr x y).2])
  | _ => .error ()

mutual

/-- `Helpers.reproject_coordinates` (main.py lines 87-95): iterate over
`coords`; recurse on elements that are lists, but on the first
non-list element return `transform(source_proj, target_proj, *coords)`
applied to the whole original list; if every element was a list, return
the rebuilt list.  Iterating a non-sequence raises TypeError. -/
def reproject_coordinates (tr : Int → Int → Int × Int) : PyVal → Except Unit PyVal
  | .list cs => reprojectLoop tr cs [] cs
  | _ => .error ()

/-- The `for c in coords` loop of `reproject_coordinates`: `orig` is the
whole `coords` list (splatted on early return), `acc` the reversed
`new_coords` accumulator. -/
def reprojectLoop (tr : Int → Int → Int × Int) (orig : List PyVal) (acc : List PyVal) :
    List PyVal → Except Unit PyVal
  | [] => .ok (.list acc.reverse)
  | .list c :: rest =>
    match reproject_coordinates tr (.list c) with
    | .ok r => reprojectLoop tr orig (r :: acc) rest
    | .error e => .error e
  | _ :: _ => transformSplat tr orig

end

mutual

/-- Specification-shaped description of reprojection: transform every
flat numeric pair, keep every other node exactly as it is (the nesting
structure in particular). -/
def mapPairs (tr : Int → Int → Int × Int) : PyVal → PyVal
  | .list [.int x, .int y] => .list [.int (tr x y).1, .int (tr x y).2]
  | .list cs => .list (mapPairsList tr cs)
  | v => v

def mapPairsList (tr : Int → Int → Int × Int) : List PyVal → List PyVal
  | [] => []
  | c :: cs => mapPairs tr c :: mapPairsList tr cs

end

/-- Well-formed geometry coordinate tree: either a flat numeric pair, or
a sequence whose members are all themselves well-formed trees (hence all
lists — the homogeneity the claim requires). -/
inductive WFCoords : PyVal → Prop
  | pair (x y : Int) : WFCoords (.list [.int x, .int y])
  | seq (cs : List PyVal) (hw : ∀ c ∈ cs, WFCoords c) : WFCoords (.list cs)

mutual

/-- Erase the numeric payload of a tree, keeping only its nesting
structure (used to state shape preservation). -/
def coordShape : PyVal → PyVal
  | .int _ => .int 0
  | .list cs => .list (coordShapeList cs)
  | v => v

/-- List companion of `coordShape`. -/
def coordShapeList : List PyVal → List PyVal
  | [] => []
  | c :: cs => coordShape c :: coordShapeList cs

end

/-- The CRS-handling part of the handler body (main.py lines 37-46):
check for a `crs` entry of type `EPSG` in the properties, compare its
code against the configured target with Python `!=`, and if they differ
reproject `body['geometry']['coordinates']` in place.  Returns the
document to be upserted (the body, its geometry coordinates replaced
when a transformation ran). -/
def ingest_transform (cfg : Config) (tr : Int → Int → Int × Int) (body : PyVal) :
    Except PyErr PyVal :=
  match pyGet body "properties" with
  | .error e => .error e
  | .ok props =>
    match pyContainsKey props "crs" with
    | .error e => .error e
    | .ok hasCrs =>
      if hasCrs then
        match pyGet props "crs" with
        | .error e => .error e
        | .ok crs =>
          match pyGet crs "type" with
          | .error e => .error e
          | .ok ty =>
            if pyEq ty (.str "EPSG") then
              match pyGet crs "properties" with
              | .error e => .error e
              | .ok crsProps =>
                match pyGet crsProps "code" with
                | .error e => .error e
                | .ok code =>
                  if ¬ pyEq code cfg.target_crs_epsg_code then
                    match pyGet body "geometry" with
                    | .error e => .error e
                    | .ok geom =>
                      match pyGet geom "coordinates" with
                      | .error e => .error e
                      | .ok coords =>
                        match reproject_coordinates tr coords with
                        | .error _ => .error .typeError
                        | .ok newCoords =>
                          match geom, body with
                          | .dict geomD, .dict bodyD =>
                            .ok (.dict (dSet bodyD "geometry"
                              (.dict (dSet geomD "coordinates" newCoords))))
                          | _, _ => .error .typeError
                  else .ok body
            else .ok body
      else .ok body

/-- The handler body up to (but excluding) the store write: read `_id`
(main.py line 35), then run the CRS handling; returns the id together
with the document to be upserted. -/
def ingest_run (cfg : Config) (tr : Int → Int → Int × Int) (body : PyVal) :
    Except PyErr (PyVal × PyVal) := do
  let id ← pyGet body "_id"
  let doc ← ingest_transform cfg tr body
  return (id, doc)

/-- Document matching for the filter `{'_id': id}`. -/
def docMatches (d : PyVal) (i : PyVal) : Bool :=
  match pyGet d "_id" with
  | .ok v => pyEq v i
  | .error _ => false

/-- Mongo `collection.replace_one({'_id': id}, doc, upsert=True)`: the
first document matching the filter is replaced wholesale by `doc`; if
none matches, `doc` is inserted. -/
def replace_one (store : List PyVal) (i : PyVal) (doc : PyVal) : List PyVal :=
  match store with
  | [] => [doc]
  | d :: ds => if docMatches d i then doc :: ds else d :: replace_one ds i doc

/-- The documents of a store matching the filter `{'_id': i}`. -/
def docsWithId (store : List PyVal) (i : PyVal) : List PyVal :=
  store.filter (fun d => docMatches d i)

/-- Response the generic exception handlers produce for an error: a
`NuclioResponseError` keeps its status and message, any other exception
is reported as an internal server error (status 500). -/
def errResp : PyErr → Resp
  | .nuclio s m => ⟨s, m⟩
  | _ => ⟨500, "Unexpected error occurred"⟩

/-- `handler` of the Ingestor (main.py lines 10-63): denies when not
ready (503), otherwise runs `ingest_run`; on success upserts the
document via `replace_one` and acknowledges with 200, on an exception
leaves the store unchanged and returns the classified response. -/
def handler (cfg : Config) (tr : Int → Int → Int × Int) (ready : Bool)
    (store : List PyVal) (body : PyVal) : List PyVal × Resp :=
  if ¬ ready then
    (store, ⟨503, "The service is loading and is temporarily unavailable."⟩)
  else
    match ingest_run cfg tr body with
    | .ok (i, doc) => (replace_one store i doc, ⟨200, ""⟩)
    | .error e => (store, errResp e)

end Ingestor


/-! ## Processor (01-archive-processor/handler/main.py)

The kafka producer is an emission trace; the filesystem walk under the
extraction directory is summarised by the number of files named
`PARCELLES_GRAPHIQUES.shp` in each visited directory (the only datum the
loop inspects); shapefile records are attribute-value lists plus a
GeoJSON geometry.  Download and extraction success are oracle bits of
the world, since their outcome depends only on the network/archive. -/

namespace Processor

/-- One shapefile record as yielded by `reader.iterShapeRecords()`:
`sr.record` (attribute values, positionally matching the field names)
and `sr.shape.__geo_interface__` (a GeoJSON-style geometry). -/
structure ShpRecord where
  attrs : List PyVal
  geometry : PyVal

/-- The external world of one Processor invocation. -/
structure World where
  /-- Whether streaming the archive URL to disk succeeds. -/
  downloadOk : Bool
  /-- Whether `Archive(...).extractall` succeeds. -/
  extractOk : Bool
  /-- For each directory visited by `os.walk` (in walk order), how many
  of its files are named `PARCELLES_GRAPHIQUES.shp`. -/
  shpDirCounts : List Nat
  /-- `[field[0] for field in reader.fields[1:]]`. -/
  fieldsName : List String
  /-- The records of the shapefile, in storage order. -/
  records : List ShpRecord

/-- Parsed download command (the dict `b` returned by
`Helpers.parse_body`). -/
structure Parsed where
  archive_format : String
  archive_url : PyVal
  source_id : String
  parcel_id_field : PyVal
  normalized_parcel_properties : List (String × PyVal)
  version : String

/-- `Helpers.parse_body` of the Processor (main.py lines 221-287):
field-presence and format checks raising 400 `NuclioResponseError`s;
`.lower()`/`.startswith` on non-strings raise AttributeError. -/
def parse_body (body : PyVal) : Except PyErr Parsed := do
  let bd ← (match body with
    | .dict d => Except.ok d
    | .list _ => Except.ok []
    | _ => Except.error PyErr.typeError)
  if ¬ dContains bd "format" then
    throw (.nuclio 400 "Archive format must be 7z !")
  let f := (dGet bd "format").getD .none
  let fs ← (match f with
    | .str s => Except.ok s
    | _ => Except.error PyErr.attributeError)
  if ¬ (pyLower fs == "7z") then
    throw (.nuclio 400 "Archive format must be 7z !")
  if ¬ dContains bd "url" then
    throw (.nuclio 400 "Missing url attribute !")
  let url := (dGet bd "url").getD .none
  if ¬ dContains bd "sourceID" then
    throw (.nuclio 400 "Missing sourceID attribute !")
  let sidV := (dGet bd "sourceID").getD .none
  let sid ← (match sidV with
    | .str s => Except.ok s
    | _ => Except.error PyErr.attributeError)
  if ¬ sStarts "lpis:fr" sid then
    throw (.nuclio 400 "sourceID: not a lpis:fr data source !")
  if ¬ dContains bd "parcelIdField" then
    throw (.nuclio 400 "Missing parcelIdField attribute !")
  let pif := (dGet bd "parcelIdField").getD .none
  if ¬ dContains bd "normalizedProperties" then
    throw (.nuclio 400 "Missing normalizedProperties attribute !")
  let nppV := (dGet bd "normalizedProperties").getD .none
  let npp ← (match nppV with
    | .dict d => Except.ok d
    | _ => Except.error (PyErr.nuclio 400 "normalizedProperties is not a dict !"))
  if ¬ dContains bd "version" then
    throw (.nuclio 400 "Missing version attribute !")
  let ver := pyStr ((dGet bd "version").getD .none)
  return ⟨fs, url, sid, pif, npp, ver⟩

/-- `url.rsplit('/',1)[-1]`: the part of the URL after the last slash
(the whole string when it has no slash). -/
def lastUrlComponent (s : String) : String :=
  match (splitChar '/' s).reverse with
  | last :: _ => last
  | [] => s

/-- Archive file name derivation (main.py lines 47-51): last URL
component, with a trailing `.001` stripped when the name ends in
`<format>.001`. -/
def archiveName (format url : String) : String :=
  let n := lastUrlComponent url
  if sEnds (format ++ ".001") n then n.dropRight 4 else n

/-- The shapefile search loop (main.py lines 65-83): walk the
directories; a directory with more than one matching file raises 400
immediately; otherwise count the directories holding exactly one match;
exactly one such directory is required. -/
def locate_shapefile : List Nat → Except PyErr Nat
  | [] => .ok 0
  | c :: rest =>
    if c = 1 then (locate_shapefile rest).map (· + 1)
    else if c > 1 then .error (.nuclio 400 "More than one shapefile PARCELLES_GRAPHIQUES.shp found !")
    else locate_shapefile rest

/-- `source_id.rsplit(':',1)[-1]`. -/
def lastColonComponent (s : String) : String :=
  match (splitChar ':' s).reverse with
  | last :: _ => last
  | [] => s

/-- `re.search('R([0-9]+)', s)`: first position whose character is `R`
followed by at least one digit; returns the maximal digit run. -/
def searchRdigits : List Char → Option (List Char)
  | [] => Option.none
  | 'R' :: rest =>
    let ds := rest.takeWhile Char.isDigit
    if ds ≠ [] then some ds else searchRdigits rest
  | _ :: rest => searchRdigits rest

/-- `re.search('D97([0-9])', s)`: first occurrence of the literal `D97`
followed by a digit; returns that digit. -/
def searchD97digit : List Char → Option Char
  | 'D' :: '9' :: '7' :: d :: rest =>
    if d.isDigit then some d else searchD97digit ('9' :: '7' :: d :: rest)
  | _ :: rest => searchD97digit rest
  | [] => Option.none

/-- `FunctionConfig.region_code_epsg_crs` (main.py lines 177-195). -/
def region_code_epsg_crs : List (Nat × Int) :=
  [(1, 32620), (2, 32620), (3, 2972), (4, 2975), (6, 4471),
   (11, 2154), (24, 2154), (27, 2154), (28, 2154), (32, 2154),
   (44, 2154), (52, 2154), (53, 2154), (75, 2154), (76, 2154),
   (84, 2154), (93, 2154), (94, 2154)]

/-- Python dict subscript on the region table: KeyError when absent. -/
def epsgLookup (k : Nat) : Except PyErr Int :=
  match region_code_epsg_crs.find? (fun kv => kv.1 == k) with
  | some kv => .ok kv.2
  | Option.none => .error .keyError

/-- Region CRS derivation (main.py lines 88-99): take the trailing
colon-component of the sourceID, match it against `R([0-9]+)` then
`D97([0-9])`, and look the numeric region code up in the EPSG table. -/
def derive_crs (source_id : String) : Except PyErr Int := do
  let region := lastColonComponent source_id
  match searchRdigits region.toList with
  | some ds => epsgLookup (digitsToNat ds)
  | Option.none =>
    match searchD97digit region.toList with
    | some d => epsgLookup (digitsToNat [d])
    | Option.none => throw (.nuclio 400 "Region code unknown")

/-- `dict(zip(fields_name, sr.record))`: later duplicates overwrite. -/
def zipDict : List String → List PyVal → List (String × PyVal)
  | k :: ks, v :: vs => dSet (zipDict ks vs) k v
  | _, _ => []

/-- `parcel_properties[parcel_id_field]`: dict subscript whose key is
whatever the command supplied; the dicts built from shapefile fields are
string-keyed, so any non-string key raises KeyError. -/
def propsSubscript (props : List (String × PyVal)) (k : PyVal) : Except PyErr PyVal :=
  match k with
  | .str s =>
    match dGet props s with
    | some v => .ok v
    | Option.none => .error .keyError
  | _ => .error .keyError

/-- `parcel_properties.get(x)`: `None` when the key is absent or not a
string (unhashable keys — lists, dicts — raise TypeError). -/
def propsGetMethod (props : List (String × PyVal)) (k : PyVal) : Except PyErr PyVal :=
  match k with
  | .str s => .ok ((dGet props s).getD .none)
  | .list _ => .error .typeError
  | .dict _ => .error .typeError
  | _ => .ok .none

/-- `eval("{0}{1}".format(value, coefSI))` (main.py line 134), for the
closed fragment the dataset uses: a `*<integer>` coefficient applied to
an integer value.  Any other operand (None from a missing source
property, containers, non-numeric strings) makes the eval raise. -/
def evalCoefSI (value : PyVal) (coef : PyVal) : Except PyErr PyVal :=
  match coef with
  | .str c =>
    if sStarts "*" c ∧ (c.drop 1).toList ≠ [] ∧ (c.drop 1).toList.all Char.isDigit then
      match value with
      | .int v => .ok (.int (v * Int.ofNat (digitsToNat (c.drop 1).toList)))
      | _ => .error .typeError
    else .error .typeError
  | _ => .error .typeError

/-- The normalized-properties loop (main.py lines 130-135) folded over
the base properties dict. -/
def applyNormalized (props : List (String × PyVal)) :
    List (String × PyVal) → List (String × PyVal) → Except PyErr (List (String × PyVal))
  | acc, [] => .ok acc
  | acc, (prop, spec) :: rest => do
    let specD ← (match spec with
      | .dict d => Except.ok d
      | _ => Except.error PyErr.typeError)
    let srcProp ← (match dGet specD "sourceProp" with
      | some v => Except.ok v
      | Option.none => Except.error PyErr.keyError)
    let value ← propsGetMethod props srcProp
    let value ← if dContains specD "coefSI" then
        evalCoefSI value ((dGet specD "coefSI").getD .none)
      else Except.ok value
    applyNormalized props (dSet acc prop value) rest

/-- One iteration of the record loop (main.py lines 115-143): parcel id
from the int conversion of the natural-key attribute, base properties
(raw attributes, crs tag, version), normalized properties, and the
GeoJSON feature sent to the producer. -/
def build_feature (source_id : String) (parcel_id_field : PyVal)
    (npp : List (String × PyVal)) (version : String) (crs_code : Int)
    (fieldsName : List String) (r : ShpRecord) : Except PyErr PyVal := do
  let props := zipDict fieldsName r.attrs
  let pidVal ← propsSubscript props parcel_id_field
  let n ← pyIntFn pidVal
  let parcel_id := source_id ++ ":" ++ toString n
  let base := [("lpis", PyVal.dict props),
    ("crs", PyVal.dict [("type", .str "EPSG"),
      ("properties", PyVal.dict [("code", .int crs_code)])]),
    ("version", PyVal.str version)]
  let properties ← applyNormalized props base npp
  return .dict [("_id", .str parcel_id), ("type", .str "Feature"),
    ("geometry", r.geometry), ("properties", .dict properties)]

/-- The record loop: features emitted so far (in order) paired with the
final outcome (the record count on success, the exception aborting the
invocation otherwise). -/
def process_records (source_id : String) (parcel_id_field : PyVal)
    (npp : List (String × PyVal)) (version : String) (crs_code : Int)
    (fieldsName : List String) : List ShpRecord → List PyVal → Nat →
    List PyVal × Except PyErr Nat
  | [], acc, n => (acc.reverse, .ok n)
  | r :: rest, acc, n =>
    match build_feature source_id parcel_id_field npp version crs_code fieldsName r with
    | .error e => (acc.reverse, .error e)
    | .ok f => process_records source_id parcel_id_field npp version crs_code fieldsName
        rest (f :: acc) (n + 1)

/-- Specification-shaped description of the record loop's output on a
prefix that processes cleanly: the features of the records in order,
failing on the first record whose feature construction fails. -/
def buildAll (source_id : String) (parcel_id_field : PyVal)
    (npp : List (String × PyVal)) (version : String) (crs_code : Int)
    (fieldsName : List String) : List ShpRecord → Except PyErr (List PyVal)
  | [] => .ok []
  | r :: rest => do
    let f ← build_feature source_id parcel_id_field npp version crs_code fieldsName r
    let fs ← buildAll source_id parcel_id_field npp version crs_code fieldsName rest
    return (f :: fs)

/-- Outcome of one Processor invocation as observed by the platform:
either the handler returned a response, or the `finally` clause raised
`UnboundLocalError` because `tmp_dir` was never assigned. -/
inductive Outcome where
  | returned (r : Resp) : Outcome
  | raisedUnboundLocal : Outcome
deriving DecidableEq

/-- Result of the try/except stage of the handler, before the `finally`
clause runs: the response the except clauses (or the success path)
produced, whether `tmp_dir` was assigned, the emitted features, and
whether the archive download was attempted (any network access). -/
structure TryResult where
  resp : Resp
  tmpBound : Bool
  emitted : List PyVal
  downloadAttempted : Bool

/-- Response of the generic exception handlers of the Processor (main.py
lines 154-161): a `NuclioResponseError` keeps status and message, any
other exception yields an internal server error. -/
def errResp : PyErr → Resp
  | .nuclio s m => ⟨s, m⟩
  | _ => ⟨500, "Unexpected error occurred"⟩

/-- The try/except body of the Processor `handler` (main.py lines
26-161): readiness check, `parse_body`, temporary-directory creation,
download, extraction, shapefile search, CRS derivation and the record
loop, each failure mapped by the except clauses. -/
def handler_try (w : World) (ready : Bool) (body : PyVal) : TryResult :=
  if ¬ ready then
    ⟨⟨503, "The service is loading and is temporarily unavailable."⟩, false, [], false⟩
  else
    match parse_body body with
    | .error e => ⟨errResp e, false, [], false⟩
    | .ok p =>
      -- tmp_dir is assigned from here on (main.py line 45)
      match p.archive_url with
      | .str _ =>
        if ¬ w.downloadOk then
          ⟨⟨503, "Failed to download file"⟩, true, [], true⟩
        else if ¬ w.extractOk then
          ⟨errResp .typeError, true, [], true⟩
        else
          match locate_shapefile w.shpDirCounts with
          | .error e => ⟨errResp e, true, [], true⟩
          | .ok found =>
            if ¬ (found = 1) then
              ⟨⟨400, "Shapefile PARCELLES_GRAPHIQUES.shp not found in extracted archive !"⟩,
                true, [], true⟩
            else
              match derive_crs p.source_id with
              | .error e => ⟨errResp e, true, [], true⟩
              | .ok crs_code =>
                let (emitted, res) := process_records p.source_id p.parcel_id_field
                  p.normalized_parcel_properties p.version crs_code w.fieldsName w.records [] 0
                match res with
                | .ok n => ⟨⟨200, "Processing Completed (" ++ toString n ++ " geometries)"⟩,
                    true, emitted, true⟩
                | .error e => ⟨errResp e, true, emitted, true⟩
      | _ => ⟨errResp .attributeError, true, [], false⟩

/-- Observable result of a Processor invocation. -/
structure Result where
  outcome : Outcome
  emitted : List PyVal
  downloadAttempted : Bool
  /-- Whether the working-directory removal in the `finally` clause ran
  (it throws `UnboundLocalError` instead when `tmp_dir` is unbound). -/
  cleanupRan : Bool

/-- The `finally: shutil.rmtree(tmp_dir)` clause (main.py lines
163-164): when `tmp_dir` was assigned the directory is removed and the
pending return value is delivered; when the try block exited before
line 45, `tmp_dir` is an unbound local and the clause raises
`UnboundLocalError`, discarding the pending response. -/
def handler (w : World) (ready : Bool) (body : PyVal) : Result :=
  let t := handler_try w ready body
  if t.tmpBound then
    ⟨.returned t.resp, t.emitted, t.downloadAttempted, true⟩
  else
    ⟨.raisedUnboundLocal, t.emitted, t.downloadAttempted, false⟩

end Processor

/-! ## Resolver (00-http-trigger/handler/main.py)

The catalog page is summarised by the `href` attributes of its anchors
carrying the `fleche2` class (exactly what the handler scrapes); the
archive-name regular expression is implemented directly as a string
matcher. -/

namespace Resolver

/-- The external world of one Resolver invocation: the scraped anchors
(`href` may be absent on an anchor). -/
structure World where
  hrefs : List (Option String)

/-- List-of-characters substring test (`.*` in the middle of the
pattern). -/
def listHasSub (needle : List Char) : List Char → Bool
  | [] => needle.isEmpty
  | c :: rest => listStarts needle (c :: rest) || listHasSub needle rest

/-- One alternative of the archive regex
`RPG_2-0__SHP_.*_<region>-<year>_<year>-01-01.7z(.001)?$` with the
optional `.001` already handled: the string must end in `7z` preceded by
one arbitrary character (the unescaped dot) preceded by the literal
date-stamped block, and contain `RPG_2-0__SHP_` somewhere before it. -/
def matchesCore (region year s : String) : Bool :=
  let tail := "_" ++ region ++ "-" ++ year ++ "_" ++ year ++ "-01-01"
  sEnds "7z" s &&
    (let u := s.dropRight 2
     decide (u.length ≥ 1) &&
       (let v := u.dropRight 1
        sEnds tail v &&
          listHasSub "RPG_2-0__SHP_".toList (v.dropRight tail.length).toList))

/-- `re.search(archive_regex, s)` for the archive pattern: either the
string itself ends in the `7z` alternative, or it ends in `.001` and the
rest matches. -/
def matchesArchiveRegex (region year s : String) : Bool :=
  matchesCore region year s || (sEnds ".001" s && matchesCore region year (s.dropRight 4))

/-- `Helpers.parse_body` of the Resolver (main.py lines 157-182):
presence checks raise 400; `if not int(body['year'])` evaluates
`int(...)` — a non-numeric value raises ValueError/TypeError out of the
function, while a successfully parsed zero is rejected with 400.  The
raw (unconverted) values are returned. -/
def parse_body (body : PyVal) : Except PyErr (PyVal × PyVal) := do
  let bd ← (match body with
    | .dict d => Except.ok d
    | .list _ => Except.ok []
    | _ => Except.error PyErr.typeError)
  if ¬ dContains bd "year" then
    throw (.nuclio 400 "Missing year attribute !")
  let yearV := (dGet bd "year").getD .none
  let yn ← pyIntFn yearV
  if yn = 0 then
    throw (.nuclio 400 "year attribute must be an integer !")
  if ¬ dContains bd "region" then
    throw (.nuclio 400 "Missing region attribute !")
  let regionV := (dGet bd "region").getD .none
  let rn ← pyIntFn regionV
  if rn = 0 then
    throw (.nuclio 400 "region attribute must be an integer !")
  return (yearV, regionV)

/-- The overseas-region rule (main.py lines 35-38): Python `region in
[1,2,3,4,6]` followed by `"D97{0}"` or `"R{0}"` formatting of the raw
region value. -/
def region_code (region : PyVal) : String :=
  if [1, 2, 3, 4, 6].any (fun k => pyEq region (.int k)) then
    "D97" ++ pyStr region
  else
    "R" ++ pyStr region

/-- `FunctionConfig.source_id`. -/
def source_id : String := "lpis:fr"

/-- The download command forged on main.py lines 82-89.  `version` is
the raw `year` value taken from the request body. -/
def download_cmd (archive : String) (regionCode : String) (year : PyVal) : PyVal :=
  .dict [("format", .str "7z"),
    ("url", .str archive),
    ("sourceID", .str (source_id ++ ":" ++ regionCode)),
    ("parcelIdField", .str "ID_PARCEL"),
    ("normalizedProperties", .dict [("area",
      .dict [("sourceProp", .str "SURF_PARC"), ("coefSI", .str "*10000")])]),
    ("version", year)]

/-- The try body of the Resolver `handler` (main.py lines 21-97):
readiness check, `parse_body`, region-code computation, catalog scrape
and link filtering, uniqueness and format checks, then the command
emission.  Returns the submitted archive URL and command. -/
def handler_run (w : World) (ready : Bool) (body : PyVal) :
    Except PyErr (String × PyVal) := do
  if ¬ ready then
    throw (.nuclio 503 "The service is loading and is temporarily unavailable.")
  let (yearV, regionV) ← parse_body body
  let region := region_code regionV
  let links := w.hrefs.filterMap (fun h =>
    match h with
    | some s => if matchesArchiveRegex region (pyStr yearV) s then some s else Option.none
    | Option.none => Option.none)
  match links with
  | [archive] =>
    if ¬ (sEnds "7z" archive || sEnds "7z.001" archive) then
      throw (.nuclio 400 "Not a 7z archive")
    return (archive, download_cmd archive region yearV)
  | _ => throw (.nuclio 400 "Failed to scrape French LPIS archive (not found)")

/-- Response of the generic exception handlers of the Resolver (main.py
lines 99-106). -/
def errResp : PyErr → Resp
  | .nuclio s m => ⟨s, m⟩
  | _ => ⟨500, "Unexpected error occurred"⟩

/-- The Resolver `handler`: a success response after the synchronous
produce/flush of the download command, the classified error response
otherwise.  Also returns the emitted commands. -/
def handler (w : World) (ready : Bool) (body : PyVal) : Resp × List PyVal :=
  match handler_run w ready body with
  | .ok (archive, cmd) =>
    (⟨200, "Archive " ++ archive ++ " successfully submitted for ingestion"⟩, [cmd])
  | .error e => (errResp e, [])

end Resolver

/-! ## Concrete inputs used by the claim theorems and witnesses -/

/-- A transform that visibly moves every coordinate pair (stands in for
a pyproj transform between two distinct coordinate systems). -/
def shiftTransform : Int → Int → Int × Int := fun x y => (x + 1, y + 1)

/-- The identity transform on coordinate pairs. -/
def idTransform : Int → Int → Int × Int := fun x y => (x, y)

/-- A Parcel Feature as built by the Processor, with integer CRS code
4326 (the canonical target in its default configuration). -/
def feature4326 : PyVal :=
  .dict [("_id", .str "lpis:fr:R24:123"),
    ("type", .str "Feature"),
    ("geometry", .dict [("type", .str "Polygon"),
      ("coordinates", .list [.list [.int 5, .int 45]])]),
    ("properties", .dict [("lpis", .dict []),
      ("crs", .dict [("type", .str "EPSG"),
        ("properties", .dict [("code", .int 4326)])]),
      ("version", .str "2016")])]

/-- What the Ingestor actually stores for `feature4326` under the
default configuration and the transform `shiftTransform`: the
coordinates have been rewritten by the transform. -/
def feature4326_stored : PyVal :=
  .dict [("_id", .str "lpis:fr:R24:123"),
    ("type", .str "Feature"),
    ("geometry", .dict [("type", .str "Polygon"),
      ("coordinates", .list [.list [.int 6, .int 46]])]),
    ("properties", .dict [("lpis", .dict []),
      ("crs", .dict [("type", .str "EPSG"),
        ("properties", .dict [("code", .int 4326)])]),
      ("version", .str "2016")])]

/-- A Parcel Feature whose properties lack a `crs` entry (and which has
no geometry either). -/
def featureNoCrs : PyVal :=
  .dict [("_id", .str "lpis:fr:R24:7"),
    ("type", .str "Feature"),
    ("properties", .dict [("area", .int 10)])]

/-- First version of a feature for the upsert scenario. -/
def featureV1 : PyVal :=
  .dict [("_id", .str "lpis:fr:R24:9"),
    ("type", .str "Feature"),
    ("properties", .dict [("area", .int 1)])]

/-- Second version of the same feature id with a different property. -/
def featureV2 : PyVal :=
  .dict [("_id", .str "lpis:fr:R24:9"),
    ("type", .str "Feature"),
    ("properties", .dict [("area", .int 2)])]

/-- A Parcel Feature declaring EPSG:2154 but missing its geometry. -/
def featureNoGeometry : PyVal :=
  .dict [("_id", .str "lpis:fr:R24:8"),
    ("type", .str "Feature"),
    ("properties", .dict [("crs", .dict [("type", .str "EPSG"),
      ("properties", .dict [("code", .int 2154)])])])]

/-- A depth-3 well-formed coordinate tree (polygon-like). -/
def exampleTree : PyVal :=
  .list [.list [.list [.int 1, .int 2], .list [.int 3, .int 4]],
    .list [.list [.int 5, .int 6]]]

/-- A Processor world in which every external step would succeed and the
shapefile holds no records (its contents are irrelevant to invocations
that fail during validation). -/
def procWorld : Processor.World :=
  ⟨true, true, [1], ["ID_PARCEL"], []⟩

/-- A Download Command announcing a zip archive. -/
def zipCmd : PyVal :=
  .dict [("format", .str "zip"),
    ("url", .str "http://files.ign.fr/RPG_2-0__SHP_LAMB93_R24-2016_2016-01-01.zip"),
    ("sourceID", .str "lpis:fr:R24"),
    ("parcelIdField", .str "ID_PARCEL"),
    ("normalizedProperties", .dict []),
    ("version", .int 2016)]

/-- A Download Command lacking its `url` field. -/
def missingUrlCmd : PyVal :=
  .dict [("format", .str "7z"),
    ("sourceID", .str "lpis:fr:R24"),
    ("parcelIdField", .str "ID_PARCEL"),
    ("normalizedProperties", .dict []),
    ("version", .int 2016)]

/-- A Resolver world whose catalog page yields exactly one archive link,
matching region R24 and year 2016. -/
def resolverWorld2016 : Resolver.World :=
  ⟨[some "https://wxs.ign.fr/RPG_2-0__SHP_LAMB93_R24-2016_2016-01-01.7z",
    some "https://wxs.ign.fr/RPG_2-0__SHP_LAMB93_R11-2016_2016-01-01.7z",
    Option.none]⟩

/-- The Archive Request `{year: 2016, region: 24}` with JSON numbers. -/
def request2016 : PyVal :=
  .dict [("year", .int 2016), ("region", .int 24)]

/-- The download command the Resolver emits for `request2016` against
`resolverWorld2016`: its `version` field is the raw request value, the
integer 2016. -/
def cmd2016 : PyVal :=
  Resolver.download_cmd "https://wxs.ign.fr/RPG_2-0__SHP_LAMB93_R24-2016_2016-01-01.7z"
    "R24" (.int 2016)

/-- An Archive Request whose year is a non-numeric string. -/
def requestBadYear : PyVal :=
  .dict [("year", .str "abc"), ("region", .int 24)]

/-- An Archive Request lacking the year field. -/
def requestNoYear : PyVal :=
  .dict [("region", .int 24)]

/-! ## Proof layer -/

mutual

theorem pyEq_refl : ∀ v : PyVal, pyEq v v = true
  | .none => rfl
  | .int _ => by simp [pyEq]
  | .str _ => by simp [pyEq]
  | .list l => by simp only [pyEq]; exact pyEqList_refl l
  | .dict d => by simp only [pyEq]; exact pyEqDict_refl d

theorem pyEqList_refl : ∀ l : List PyVal, pyEqList l l = true
  | [] => rfl
  | a :: xs => by
    simp only [pyEqList, Bool.and_eq_true]
    exact ⟨pyEq_refl a, pyEqList_refl xs⟩

theorem pyEqDict_refl : ∀ d : List (String × PyVal), pyEqDict d d = true
  | [] => rfl
  | (k, v) :: xs => by
    simp only [pyEqDict, Bool.and_eq_true]
    exact ⟨⟨by simp, pyEq_refl v⟩, pyEqDict_refl xs⟩

end

namespace Ingestor

/-- A well-formed coordinate tree is a Python list. -/
theorem WFCoords_is_list {v : PyVal} (h : WFCoords v) : ∃ l, v = PyVal.list l := by
  cases h with
  | pair x y => exact ⟨_, rfl⟩
  | seq cs _ => exact ⟨cs, rfl⟩

/-- On a list whose members are all lists, `mapPairs` maps over the
members (the flat-pair case cannot fire). -/
theorem mapPairs_all_lists (tr : Int → Int → Int × Int) (cs : List PyVal)
    (h : ∀ c ∈ cs, ∃ l, c = PyVal.list l) :
    mapPairs tr (.list cs) = .list (mapPairsList tr cs) := by
  cases cs with
  | nil => rfl
  | cons a t =>
    obtain ⟨l, rfl⟩ := h a (by simp)
    rfl

/-- The reprojection loop over a list of well-behaved members rebuilds
the accumulated transforms. -/
theorem reprojectLoop_ok (tr : Int → Int → Int × Int) (orig : List PyVal) :
    ∀ (l acc : List PyVal),
      (∀ c ∈ l, ∃ ls, c = PyVal.list ls) →
      (∀ c ∈ l, reproject_coordinates tr c = .ok (mapPairs tr c)) →
      reprojectLoop tr orig acc l = .ok (.list (acc.reverse ++ mapPairsList tr l))
  | [], acc, _, _ => by simp [reprojectLoop, mapPairsList]
  | a :: t, acc, h1, h2 => by
    obtain ⟨ls, rfl⟩ := h1 a (by simp)
    have ha := h2 (.list ls) (by simp)
    simp only [reprojectLoop, ha]
    rw [reprojectLoop_ok tr orig t (mapPairs tr (.list ls) :: acc)
      (fun c hc => h1 c (by simp [hc])) (fun c hc => h2 c (by simp [hc]))]
    simp [mapPairsList]

/-- Core of C4: on every well-formed coordinate tree the source's
recursive reprojection succeeds and equals the structure-preserving
pairwise map. -/
theorem reproject_eq_mapPairs (tr : Int → Int → Int × Int) :
    ∀ v : PyVal, WFCoords v → reproject_coordinates tr v = .ok (mapPairs tr v)
  | _, WFCoords.pair x y => rfl
  | _, WFCoords.seq cs hw => by
    have hlists : ∀ c ∈ cs, ∃ ls, c = PyVal.list ls :=
      fun c hc => WFCoords_is_list (hw c hc)
    have hrec : ∀ c ∈ cs, reproject_coordinates tr c = .ok (mapPairs tr c) :=
      fun c hc => reproject_eq_mapPairs tr c (hw c hc)
    calc reproject_coordinates tr (.list cs)
        = reprojectLoop tr cs [] cs := rfl
      _ = .ok (.list (([] : List PyVal).reverse ++ mapPairsList tr cs)) :=
          reprojectLoop_ok tr cs cs [] hlists hrec
      _ = .ok (mapPairs tr (.list cs)) := by
          rw [mapPairs_all_lists tr cs hlists]; simp

/-- Companion of `mapPairs_shape` for lists. -/
theorem mapPairsList_shape (tr : Int → Int → Int × Int) :
    ∀ cs : List PyVal, (∀ c ∈ cs, coordShape (mapPairs tr c) = coordShape c) →
      coordShapeList (mapPairsList tr cs) = coordShapeList cs
  | [], _ => rfl
  | a :: t, h => by
    simp only [mapPairsList, coordShapeList]
    rw [h a (by simp), mapPairsList_shape tr t (fun c hc => h c (by simp [hc]))]

/-- `mapPairs` preserves the nesting shape of a well-formed tree. -/
theorem mapPairs_shape (tr : Int → Int → Int × Int) :
    ∀ v : PyVal, WFCoords v → coordShape (mapPairs tr v) = coordShape v
  | _, WFCoords.pair x y => rfl
  | _, WFCoords.seq cs hw => by
    have h : ∀ c ∈ cs, coordShape (mapPairs tr c) = coordShape c :=
      fun c hc => mapPairs_shape tr c (hw c hc)
    rw [mapPairs_all_lists tr cs (fun c hc => WFCoords_is_list (hw c hc))]
    simp only [coordShape]
    rw [mapPairsList_shape tr cs h]

end Ingestor

/-! ## Supporting lemmas: dict update and error classification -/

/-- Lookup in a dict with an explicit head. -/
theorem dGet_cons (a : String) (b : PyVal) (t : List (String × PyVal)) (ks : String) :
    dGet ((a, b) :: t) ks = if a == ks then some b else dGet t ks := by
  simp only [dGet, List.find?]
  cases hab : a == ks <;> simp

/-- Updating one key leaves lookups of a different key unchanged. -/
theorem dGet_dSet_ne (d : List (String × PyVal)) (k ks : String) (v : PyVal)
    (h : ks ≠ k) : dGet (dSet d k v) ks = dGet d ks := by
  induction d with
  | nil =>
    simp only [dSet, dGet_cons]
    simp [dGet, Ne.symm h]
  | cons kv rest ih =>
    obtain ⟨k0, v0⟩ := kv
    simp only [dSet]
    by_cases hk : k0 = k
    · subst hk
      simp only [beq_self_eq_true, if_true, dGet_cons]
      simp [Ne.symm h]
    · simp only [beq_iff_eq, hk, if_false, dGet_cons]
      by_cases hB : k0 = ks
      · simp [hB]
      · simp only [beq_iff_eq, hB, if_false]
        exact ih

/-- A failing subscript raises KeyError or TypeError, never a
`NuclioResponseError`. -/
theorem pyGet_err {v : PyVal} {k : String} {e : PyErr} (h : pyGet v k = .error e) :
    e = PyErr.keyError ∨ e = PyErr.typeError := by
  cases v with
  | dict d =>
    simp only [pyGet] at h
    cases hd : dGet d k with
    | some x => rw [hd] at h; cases h
    | none => rw [hd] at h; cases h; exact Or.inl rfl
  | none => cases h; exact Or.inr rfl
  | int n => cases h; exact Or.inr rfl
  | str s => cases h; exact Or.inr rfl
  | list l => cases h; exact Or.inr rfl

/-- A failing `in` test raises TypeError. -/
theorem pyContainsKey_err {v : PyVal} {k : String} {e : PyErr}
    (h : pyContainsKey v k = .error e) : e = PyErr.typeError := by
  unfold pyContainsKey at h
  cases v <;> (try cases h) <;> rfl

namespace Ingestor

/-- The upserted document carries the `_id` of the incoming body: the
CRS handling either returns the body unchanged or only rewrites its
`geometry` entry. -/
theorem ingest_transform_id {cfg : Config} {tr : Int → Int → Int × Int}
    {b d : PyVal} (h : ingest_transform cfg tr b = .ok d) :
    pyGet d "_id" = pyGet b "_id" := by
  unfold ingest_transform at h
  repeat' split at h
  all_goals cases h
  all_goals try rfl
  subst_vars
  simp only [pyGet]
  rw [dGet_dSet_ne]
  decide

/-- Every exception escaping the CRS handling is classified as an
internal server error by the generic except clause. -/
theorem ingest_transform_err_500 {cfg : Config} {tr : Int → Int → Int × Int}
    {b : PyVal} {e : PyErr} (h : ingest_transform cfg tr b = .error e) :
    errResp e = ⟨500, "Unexpected error occurred"⟩ := by
  unfold ingest_transform at h
  repeat' split at h
  all_goals cases h
  all_goals try rfl
  all_goals first
    | (rcases pyGet_err (by assumption) with rfl | rfl <;> rfl)
    | (cases pyContainsKey_err (by assumption); rfl)

/-- Every exception escaping the handler body is classified as an
internal server error. -/
theorem ingest_run_err_500 {cfg : Config} {tr : Int → Int → Int × Int}
    {b : PyVal} {e : PyErr} (h : ingest_run cfg tr b = .error e) :
    errResp e = ⟨500, "Unexpected error occurred"⟩ := by
  unfold ingest_run at h
  cases hid : pyGet b "_id" with
  | error e1 =>
    rw [hid] at h
    simp only [bind, Except.bind] at h
    cases h
    rcases pyGet_err hid with rfl | rfl <;> rfl
  | ok i =>
    rw [hid] at h
    simp only [bind, Except.bind] at h
    cases ht : ingest_transform cfg tr b with
    | error e2 =>
      rw [ht] at h
      simp only [pure, Except.pure] at h
      cases h
      exact ingest_transform_err_500 ht
    | ok d =>
      rw [ht] at h
      simp only [pure, Except.pure] at h
      cases h

/-- Inversion of a 200 response: the handler succeeded, and the new
store is the upsert of the transformed document under the body's id. -/
theorem handler_200_inv {cfg : Config} {tr : Int → Int → Int × Int}
    {s s1 : List PyVal} {b : PyVal} {r : Resp}
    (h : handler cfg tr true s b = (s1, r)) (hr : r.status = 200) :
    ∃ i d, pyGet b "_id" = .ok i ∧ ingest_transform cfg tr b = .ok d ∧
      s1 = replace_one s i d := by
  unfold handler at h
  simp only [not_true, if_neg, reduceIte] at h
  cases hrun : ingest_run cfg tr b with
  | ok p =>
    obtain ⟨i, d⟩ := p
    rw [hrun] at h
    cases h
    refine ⟨i, d, ?_, ?_, rfl⟩ <;>
      (unfold ingest_run at hrun
       cases hid : pyGet b "_id" with
       | error e1 => rw [hid] at hrun; simp only [bind, Except.bind] at hrun; cases hrun
       | ok i0 =>
         rw [hid] at hrun
         simp only [bind, Except.bind] at hrun
         cases ht : ingest_transform cfg tr b with
         | error e2 => rw [ht] at hrun; simp only [pure, Except.pure] at hrun; cases hrun
         | ok d0 =>
           rw [ht] at hrun
           simp only [pure, Except.pure] at hrun
           cases hrun
           rfl)
  | error e =>
    rw [hrun] at h
    cases h
    rw [ingest_run_err_500 hrun] at hr
    cases hr

/-- Filtering after a `replace_one` whose replacement matches the
filter: when the store held at most one match, the matches afterwards
are exactly the replacement document. -/
theorem docsWithId_replace_one (s : List PyVal) (i doc : PyVal)
    (hm : docMatches doc i = true)
    (hs : (docsWithId s i).length ≤ 1) :
    docsWithId (replace_one s i doc) i = [doc] := by
  induction s with
  | nil => simp [replace_one, docsWithId, hm]
  | cons d ds ih =>
    by_cases hd : docMatches d i = true
    · simp only [replace_one, hd, if_true]
      have h0 : (List.filter (fun x => docMatches x i) ds).length = 0 := by
        simp only [docsWithId, List.filter, hd, List.length_cons] at hs
        omega
      have hnil := List.length_eq_zero.mp h0
      simp only [docsWithId, List.filter, hm]
      rw [hnil]
    · simp only [replace_one, hd, if_false]
      simp only [docsWithId, List.filter] at hs ⊢
      rw [Bool.of_not_eq_true hd] at hs ⊢
      exact ih hs

end Ingestor

/-- A successful lookup implies the membership test succeeds. -/
theorem dContains_of_dGet {d : List (String × PyVal)} {k : String} {v : PyVal}
    (h : dGet d k = some v) : dContains d k = true := by
  unfold dGet at h
  cases hf : List.find? (fun kv => kv.1 == k) d with
  | none => rw [hf] at h; cases h
  | some kv =>
    have hm := List.mem_of_find?_eq_some hf
    have hp := List.find?_some hf
    exact List.any_eq_true.mpr ⟨kv, hm, hp⟩

namespace Ingestor

/-- When the properties dict has no `crs` entry, the CRS handling leaves
the body untouched and raises nothing. -/
theorem ingest_transform_no_crs {cfg : Config} {tr : Int → Int → Int × Int}
    {body : PyVal} {props : List (String × PyVal)}
    (hp : pyGet body "properties" = .ok (.dict props))
    (hc : dContains props "crs" = false) :
    ingest_transform cfg tr body = .ok body := by
  unfold ingest_transform
  rw [hp]
  simp [pyContainsKey, hc]

/-- Handler success assembled from its parts. -/
theorem handler_ok {cfg : Config} {tr : Int → Int → Int × Int}
    {store : List PyVal} {body i d : PyVal}
    (hid : pyGet body "_id" = .ok i) (ht : ingest_transform cfg tr body = .ok d) :
    handler cfg tr true store body = (replace_one store i d, ⟨200, ""⟩) := by
  have hrun : ingest_run cfg tr body = .ok (i, d) := by
    unfold ingest_run
    rw [hid]
    simp only [bind, Except.bind]
    rw [ht]
    rfl
  unfold handler
  rw [hrun]
  simp

/-- Handler failure assembled from a failing body. -/
theorem handler_err {cfg : Config} {tr : Int → Int → Int × Int}
    {store : List PyVal} {body : PyVal} {e : PyErr}
    (hrun : ingest_run cfg tr body = .error e) :
    handler cfg tr true store body = (store, errResp e) := by
  unfold handler
  rw [hrun]
  simp

/-- A failing CRS handling step fails the whole body. -/
theorem ingest_run_err_of_transform {cfg : Config} {tr : Int → Int → Int × Int}
    {body i : PyVal} {e : PyErr}
    (hid : pyGet body "_id" = .ok i) (ht : ingest_transform cfg tr body = .error e) :
    ingest_run cfg tr body = .error e := by
  unfold ingest_run
  rw [hid]
  simp only [bind, Except.bind]
  rw [ht]

/-- A feature that declares a differing EPSG CRS but carries no geometry
makes the CRS handling raise KeyError at `body['geometry']`. -/
theorem ingest_transform_missing_geometry {cfg : Config}
    {tr : Int → Int → Int × Int} {body crs crsProps code : PyVal}
    {props : List (String × PyVal)}
    (hp : pyGet body "properties" = .ok (.dict props))
    (hcrs : dGet props "crs" = some crs)
    (hty : pyGet crs "type" = .ok (.str "EPSG"))
    (hcp : pyGet crs "properties" = .ok crsProps)
    (hcode : pyGet crsProps "code" = .ok code)
    (hne : pyEq code cfg.target_crs_epsg_code = false)
    (hgeom : pyGet body "geometry" = .error PyErr.keyError) :
    ingest_transform cfg tr body = .error PyErr.keyError := by
  have hgetcrs : pyGet (.dict props) "crs" = .ok crs := by
    simp [pyGet, hcrs]
  unfold ingest_transform
  rw [hp]
  simp only [pyContainsKey, dContains_of_dGet hcrs, if_true]
  rw [hgetcrs]
  simp only []
  rw [hty]
  simp only [pyEq_refl, if_true]
  rw [hcp]
  simp only []
  rw [hcode]
  simp only [hne, Bool.false_eq_true, not_false_eq_true, if_true]
  rw [hgeom]

end Ingestor

/-! ## Claim theorems -/

/-- C1: the claim states that a Parcel Feature whose declared CRS EPSG
code equals the configured target (in particular integer code 4326
under the default target 4326) is upserted with its coordinates exactly
as received, with no reprojection performed.  The code violates this:
it compares the integer code with the string read from the environment
(`os.getenv('TARGET_CRS_EPSG_CODE','4326')`), which are never equal in
Python, so the reprojection branch runs and the stored coordinates are
the transform's output, not the received ones. -/
theorem C1_reprojects_despite_matching_code :
    pyEq (.int 4326) Ingestor.default_config.target_crs_epsg_code = false ∧
    Ingestor.handler Ingestor.default_config shiftTransform true [] feature4326
      = ([feature4326_stored], ⟨200, ""⟩) ∧
    feature4326_stored ≠ feature4326 :=
  ⟨rfl, rfl, by simp [feature4326_stored, feature4326]⟩

/-- C3: re-ingesting a feature id that already has a stored document
fully replaces that document: after two successful ingestions of bodies
carrying the same `_id` into a store holding at most one document with
that id, exactly one document with the id remains and it is the
(possibly reprojected) document derived from the second body alone. -/
theorem C3_idempotent_upsert (cfg : Ingestor.Config) (tr : Int → Int → Int × Int)
    (s0 s1 s2 : List PyVal) (b1 b2 i : PyVal) (r1 r2 : Resp)
    (h1 : Ingestor.handler cfg tr true s0 b1 = (s1, r1)) (hr1 : r1.status = 200)
    (h2 : Ingestor.handler cfg tr true s1 b2 = (s2, r2)) (hr2 : r2.status = 200)
    (hi1 : pyGet b1 "_id" = .ok i) (hi2 : pyGet b2 "_id" = .ok i)
    (hs0 : (Ingestor.docsWithId s0 i).length ≤ 1) :
    ∃ d2, Ingestor.ingest_transform cfg tr b2 = .ok d2 ∧
      Ingestor.docsWithId s2 i = [d2] := by
  obtain ⟨i1, d1, hid1, ht1, hs1⟩ := Ingestor.handler_200_inv h1 hr1
  obtain ⟨i2, d2, hid2, ht2, hs2⟩ := Ingestor.handler_200_inv h2 hr2
  rw [hi1] at hid1
  rw [hi2] at hid2
  cases hid1
  cases hid2
  have hm1 : Ingestor.docMatches d1 i = true := by
    unfold Ingestor.docMatches
    rw [Ingestor.ingest_transform_id ht1, hi1]
    exact pyEq_refl i
  have hm2 : Ingestor.docMatches d2 i = true := by
    unfold Ingestor.docMatches
    rw [Ingestor.ingest_transform_id ht2, hi2]
    exact pyEq_refl i
  have hD1 : Ingestor.docsWithId s1 i = [d1] :=
    hs1 ▸ Ingestor.docsWithId_replace_one s0 i d1 hm1 hs0
  have hs1len : (Ingestor.docsWithId s1 i).length ≤ 1 := by rw [hD1]; simp
  exact ⟨d2, ht2, hs2 ▸ Ingestor.docsWithId_replace_one s1 i d2 hm2 hs1len⟩

/-- Witness for C3: ingesting `featureV1` then `featureV2` (same id,
different property values) into an empty store leaves exactly the
document of the second version. -/
theorem C3_idempotent_upsert_witness :
    ∃ d2, Ingestor.ingest_transform Ingestor.default_config idTransform featureV2 = .ok d2 ∧
      Ingestor.docsWithId [featureV2] (.str "lpis:fr:R24:9") = [d2] :=
  C3_idempotent_upsert Ingestor.default_config idTransform [] [featureV1] [featureV2]
    featureV1 featureV2 (.str "lpis:fr:R24:9") ⟨200, ""⟩ ⟨200, ""⟩
    rfl rfl rfl rfl rfl rfl (by simp [Ingestor.docsWithId])

/-- C4: on every well-formed geometry coordinate tree the Ingestor's
recursive reprojection succeeds, and its result is exactly the
structure-preserving map that transforms every flat numeric pair and
changes nothing else; in particular the nesting shape is identical. -/
theorem C4_reprojection_preserves_structure (tr : Int → Int → Int × Int)
    (v : PyVal) (h : Ingestor.WFCoords v) :
    Ingestor.reproject_coordinates tr v = .ok (Ingestor.mapPairs tr v) ∧
      Ingestor.coordShape (Ingestor.mapPairs tr v) = Ingestor.coordShape v :=
  ⟨Ingestor.reproject_eq_mapPairs tr v h, Ingestor.mapPairs_shape tr v h⟩

/-- Witness for C4 at a concrete depth-3 tree and a concrete pair
transform. -/
theorem C4_reprojection_preserves_structure_witness :
    Ingestor.reproject_coordinates shiftTransform exampleTree
        = .ok (Ingestor.mapPairs shiftTransform exampleTree) ∧
      Ingestor.coordShape (Ingestor.mapPairs shiftTransform exampleTree)
        = Ingestor.coordShape exampleTree :=
  C4_reprojection_preserves_structure shiftTransform exampleTree (by
    refine Ingestor.WFCoords.seq _ ?_
    intro c hc
    simp only [exampleTree, List.mem_cons, List.not_mem_nil, or_false] at hc
    rcases hc with rfl | rfl
    · refine Ingestor.WFCoords.seq _ ?_
      intro c hc
      simp only [List.mem_cons, List.not_mem_nil, or_false] at hc
      rcases hc with rfl | rfl
      · exact Ingestor.WFCoords.pair 1 2
      · exact Ingestor.WFCoords.pair 3 4
    · refine Ingestor.WFCoords.seq _ ?_
      intro c hc
      simp only [List.mem_cons, List.not_mem_nil, or_false] at hc
      rcases hc with rfl
      exact Ingestor.WFCoords.pair 5 6)

/-- C9: the claim states that a Parcel Feature whose properties lack a
CRS entry surfaces a distinct error.  Counterexample: such a feature is
acknowledged with 200 and silently upserted unchanged (no error of any
kind). -/
theorem C9_missing_crs_counterexample :
    Ingestor.handler Ingestor.default_config idTransform true [] featureNoCrs
      = ([featureNoCrs], ⟨200, ""⟩) := rfl

/-- C9 (amended): a Parcel Feature whose properties lack a `crs` entry
is silently upserted unchanged with a 200 acknowledgment (no error);
a missing geometry structure surfaces an error (internal, 500) exactly
when a CRS transformation is required, i.e. when the feature declares an
EPSG CRS whose code differs (under Python `!=`) from the configured
target. -/
theorem C9_missing_crs_amended :
    (∀ (cfg : Ingestor.Config) (tr : Int → Int → Int × Int) (store : List PyVal)
      (body i : PyVal) (props : List (String × PyVal)),
      pyGet body "_id" = .ok i →
      pyGet body "properties" = .ok (.dict props) →
      dContains props "crs" = false →
      Ingestor.handler cfg tr true store body
        = (Ingestor.replace_one store i body, ⟨200, ""⟩)) ∧
    (∀ (cfg : Ingestor.Config) (tr : Int → Int → Int × Int) (store : List PyVal)
      (body i crs crsProps code : PyVal) (props : List (String × PyVal)),
      pyGet body "_id" = .ok i →
      pyGet body "properties" = .ok (.dict props) →
      dGet props "crs" = some crs →
      pyGet crs "type" = .ok (.str "EPSG") →
      pyGet crs "properties" = .ok crsProps →
      pyGet crsProps "code" = .ok code →
      pyEq code cfg.target_crs_epsg_code = false →
      pyGet body "geometry" = .error PyErr.keyError →
      Ingestor.handler cfg tr true store body
        = (store, ⟨500, "Unexpected error occurred"⟩)) := by
  constructor
  · intro cfg tr store body i props hid hp hc
    exact Ingestor.handler_ok hid (Ingestor.ingest_transform_no_crs hp hc)
  · intro cfg tr store body i crs crsProps code props hid hp hcrs hty hcp hcode hne hgeom
    have ht : Ingestor.ingest_transform cfg tr body = .error PyErr.keyError :=
      Ingestor.ingest_transform_missing_geometry hp hcrs hty hcp hcode hne hgeom
    have hh : Ingestor.handler cfg tr true store body
        = (store, Ingestor.errResp PyErr.keyError) :=
      Ingestor.handler_err (Ingestor.ingest_run_err_of_transform hid ht)
    simpa [Ingestor.errResp] using hh

/-- Witness for the amended C9: `featureNoCrs` is upserted unchanged
with 200, and `feature4326` with its geometry removed yields a 500. -/
theorem C9_missing_crs_amended_witness :
    Ingestor.handler Ingestor.default_config idTransform true [] featureNoCrs
      = (Ingestor.replace_one [] (.str "lpis:fr:R24:7") featureNoCrs, ⟨200, ""⟩) ∧
    Ingestor.handler Ingestor.default_config idTransform true [] featureNoGeometry
      = ([], ⟨500, "Unexpected error occurred"⟩) :=
  ⟨C9_missing_crs_amended.1 Ingestor.default_config idTransform [] featureNoCrs
      (.str "lpis:fr:R24:7") [("area", .int 10)] rfl rfl rfl,
    C9_missing_crs_amended.2 Ingestor.default_config idTransform [] featureNoGeometry
      (.str "lpis:fr:R24:8")
      (.dict [("type", .str "EPSG"), ("properties", .dict [("code", .int 2154)])])
      (.dict [("code", .int 2154)]) (.int 2154)
      [("crs", .dict [("type", .str "EPSG"), ("properties", .dict [("code", .int 2154)])])]
      rfl rfl rfl rfl rfl rfl rfl rfl⟩

namespace Processor

/-- The `_id` of a successfully built feature is the sourceID, a colon,
and the string form of the int conversion of the natural-key value. -/
theorem build_feature_id {source_id : String} {parcel_id_field : PyVal}
    {npp : List (String × PyVal)} {version : String} {crs_code : Int}
    {fieldsName : List String} {r : ShpRecord} {v f : PyVal} {n : Int}
    (hsub : propsSubscript (zipDict fieldsName r.attrs) parcel_id_field = .ok v)
    (hint : pyIntFn v = .ok n)
    (hf : build_feature source_id parcel_id_field npp version crs_code fieldsName r = .ok f) :
    pyGet f "_id" = .ok (.str (source_id ++ ":" ++ toString n)) := by
  unfold build_feature at hf
  simp only [bind, Except.bind, hsub, hint, pure, Except.pure] at hf
  cases happ : applyNormalized (zipDict fieldsName r.attrs)
      [("lpis", PyVal.dict (zipDict fieldsName r.attrs)),
        ("crs", PyVal.dict [("type", .str "EPSG"),
          ("properties", PyVal.dict [("code", .int crs_code)])]),
        ("version", PyVal.str version)] npp with
  | error e => rw [happ] at hf; cases hf
  | ok ps =>
    rw [happ] at hf
    cases hf
    rfl

/-- A natural-key value that `int()` cannot convert fails the feature
construction with that very exception. -/
theorem build_feature_err_int {source_id : String} {parcel_id_field : PyVal}
    {npp : List (String × PyVal)} {version : String} {crs_code : Int}
    {fieldsName : List String} {r : ShpRecord} {v : PyVal} {e : PyErr}
    (hsub : propsSubscript (zipDict fieldsName r.attrs) parcel_id_field = .ok v)
    (hint : pyIntFn v = .error e) :
    build_feature source_id parcel_id_field npp version crs_code fieldsName r = .error e := by
  unfold build_feature
  simp only [bind, Except.bind, hsub, hint]

/-- The record loop on `pre ++ bad :: post`, where every record of `pre`
builds cleanly and `bad` fails: it emits exactly the features of `pre`
and aborts with the exception of `bad`, emitting neither `bad` nor any
later record. -/
theorem process_records_abort {source_id : String} {parcel_id_field : PyVal}
    {npp : List (String × PyVal)} {version : String} {crs_code : Int}
    {fieldsName : List String} (bad : ShpRecord) (post : List ShpRecord) (e : PyErr)
    (hbad : build_feature source_id parcel_id_field npp version crs_code fieldsName bad
      = .error e) :
    ∀ (pre : List ShpRecord) (acc : List PyVal) (nn : Nat) (fs : List PyVal),
      buildAll source_id parcel_id_field npp version crs_code fieldsName pre = .ok fs →
      process_records source_id parcel_id_field npp version crs_code fieldsName
        (pre ++ bad :: post) acc nn = (acc.reverse ++ fs, .error e)
  | [], acc, nn, fs, hpre => by
    cases hpre
    simp only [List.nil_append, process_records, hbad, List.append_nil]
  | r :: rest, acc, nn, fs, hpre => by
    unfold buildAll at hpre
    simp only [bind, Except.bind, pure, Except.pure] at hpre
    cases hr : build_feature source_id parcel_id_field npp version crs_code fieldsName r with
    | error e1 => rw [hr] at hpre; cases hpre
    | ok f =>
      rw [hr] at hpre
      cases hrest : buildAll source_id parcel_id_field npp version crs_code fieldsName rest with
      | error e2 => rw [hrest] at hpre; cases hpre
      | ok fs1 =>
        rw [hrest] at hpre
        cases hpre
        have ih := process_records_abort bad post e hbad rest (f :: acc) (nn + 1) fs1 hrest
        calc process_records source_id parcel_id_field npp version crs_code fieldsName
              ((r :: rest) ++ bad :: post) acc nn
            = process_records source_id parcel_id_field npp version crs_code fieldsName
              (rest ++ bad :: post) (f :: acc) (nn + 1) := by
              rw [List.cons_append]
              simp only [process_records, hr]
          _ = ((f :: acc).reverse ++ fs1, .error e) := ih
          _ = (acc.reverse ++ f :: fs1, .error e) := by simp

end Processor

/-- C2: the claim states that on every exit path, including
request-validation failure, the working-directory removal runs and the
handler returns its normal or classified-error response.  The code
violates this: on a validation failure `tmp_dir` (assigned only at
main.py line 45) is an unbound local when `finally:
shutil.rmtree(tmp_dir)` runs, so the cleanup raises
`UnboundLocalError`, no removal happens, and the pending 400 response
is discarded. -/
theorem C2_cleanup_raises_on_validation_failure :
    Processor.handler_try procWorld true missingUrlCmd
      = ⟨⟨400, "Missing url attribute !"⟩, false, [], false⟩ ∧
    Processor.handler procWorld true missingUrlCmd
      = ⟨.raisedUnboundLocal, [], false, false⟩ :=
  ⟨rfl, rfl⟩

/-- C6: a Download Command announcing format `zip` is rejected by
`parse_body` as a 400 `NuclioResponseError` before any network access
(no download is attempted), as the claim states; but the invocation
then terminates with the `UnboundLocalError` raised by the cleanup
clause, so the 400-class response is never actually returned. -/
theorem C6_zip_rejected_before_network :
    Processor.handler_try procWorld true zipCmd
      = ⟨⟨400, "Archive format must be 7z !"⟩, false, [], false⟩ ∧
    (Processor.handler procWorld true zipCmd).downloadAttempted = false ∧
    (Processor.handler procWorld true zipCmd).outcome = .raisedUnboundLocal :=
  ⟨rfl, rfl, rfl⟩

/-- C10: the emitted feature id is the sourceID, a colon, and the int
conversion of the record's natural-key value — so numerically equal but
textually distinct keys receive the same id — and a record whose key
does not convert aborts the whole invocation before that record is
emitted (earlier records having been emitted already). -/
theorem C10_parcel_id_int_conversion :
    (∀ (source_id : String) (parcel_id_field : PyVal) (npp : List (String × PyVal))
      (version : String) (crs_code : Int) (fieldsName : List String)
      (r1 r2 : Processor.ShpRecord) (v1 v2 f1 f2 : PyVal) (n : Int),
      Processor.propsSubscript (Processor.zipDict fieldsName r1.attrs) parcel_id_field = .ok v1 →
      Processor.propsSubscript (Processor.zipDict fieldsName r2.attrs) parcel_id_field = .ok v2 →
      pyIntFn v1 = .ok n → pyIntFn v2 = .ok n →
      Processor.build_feature source_id parcel_id_field npp version crs_code fieldsName r1
        = .ok f1 →
      Processor.build_feature source_id parcel_id_field npp version crs_code fieldsName r2
        = .ok f2 →
      pyGet f1 "_id" = .ok (.str (source_id ++ ":" ++ toString n)) ∧
        pyGet f2 "_id" = .ok (.str (source_id ++ ":" ++ toString n))) ∧
    (∀ (source_id : String) (parcel_id_field : PyVal) (npp : List (String × PyVal))
      (version : String) (crs_code : Int) (fieldsName : List String)
      (pre : List Processor.ShpRecord) (bad : Processor.ShpRecord)
      (post : List Processor.ShpRecord) (fs : List PyVal) (vb : PyVal) (e : PyErr),
      Processor.buildAll source_id parcel_id_field npp version crs_code fieldsName pre
        = .ok fs →
      Processor.propsSubscript (Processor.zipDict fieldsName bad.attrs) parcel_id_field
        = .ok vb →
      pyIntFn vb = .error e →
      Processor.process_records source_id parcel_id_field npp version crs_code fieldsName
        (pre ++ bad :: post) [] 0 = (fs, .error e)) := by
  constructor
  · intro source_id parcel_id_field npp version crs_code fieldsName r1 r2 v1 v2 f1 f2 n
      hs1 hs2 hi1 hi2 hf1 hf2
    exact ⟨Processor.build_feature_id hs1 hi1 hf1, Processor.build_feature_id hs2 hi2 hf2⟩
  · intro source_id parcel_id_field npp version crs_code fieldsName pre bad post fs vb e
      hpre hsb hib
    have habort := Processor.process_records_abort bad post e
      (Processor.build_feature_err_int hsb hib) pre [] 0 fs hpre
    simpa using habort

/-- Witness for C10: records with keys `"0123"` and `"123"` get the
same id `lpis:fr:R24:123`, and a run on records keyed `"0123"`,
`"abc"`, `"7"` emits only the first feature and aborts with the
ValueError of the second. -/
theorem C10_parcel_id_int_conversion_witness :
    (pyGet
        (.dict [("_id", .str "lpis:fr:R24:123"), ("type", .str "Feature"),
          ("geometry", .none),
          ("properties", .dict [("lpis", .dict [("ID_PARCEL", .str "0123")]),
            ("crs", .dict [("type", .str "EPSG"),
              ("properties", .dict [("code", .int 2154)])]),
            ("version", .str "2016")])])
        "_id" = .ok (.str ("lpis:fr:R24" ++ ":" ++ toString (123 : Int))) ∧
      pyGet
        (.dict [("_id", .str "lpis:fr:R24:123"), ("type", .str "Feature"),
          ("geometry", .none),
          ("properties", .dict [("lpis", .dict [("ID_PARCEL", .str "123")]),
            ("crs", .dict [("type", .str "EPSG"),
              ("properties", .dict [("code", .int 2154)])]),
            ("version", .str "2016")])])
        "_id" = .ok (.str ("lpis:fr:R24" ++ ":" ++ toString (123 : Int)))) ∧
    Processor.process_records "lpis:fr:R24" (.str "ID_PARCEL") [] "2016" 2154 ["ID_PARCEL"]
      [⟨[.str "0123"], .none⟩, ⟨[.str "abc"], .none⟩, ⟨[.str "7"], .none⟩] [] 0
      = ([.dict [("_id", .str "lpis:fr:R24:123"), ("type", .str "Feature"),
          ("geometry", .none),
          ("properties", .dict [("lpis", .dict [("ID_PARCEL", .str "0123")]),
            ("crs", .dict [("type", .str "EPSG"),
              ("properties", .dict [("code", .int 2154)])]),
            ("version", .str "2016")])]], .error .valueError) :=
  ⟨C10_parcel_id_int_conversion.1 "lpis:fr:R24" (.str "ID_PARCEL") [] "2016" 2154
      ["ID_PARCEL"] ⟨[.str "0123"], .none⟩ ⟨[.str "123"], .none⟩
      (.str "0123") (.str "123") _ _ 123 rfl rfl rfl rfl rfl rfl,
    C10_parcel_id_int_conversion.2 "lpis:fr:R24" (.str "ID_PARCEL") [] "2016" 2154
      ["ID_PARCEL"] [⟨[.str "0123"], .none⟩] ⟨[.str "abc"], .none⟩ [⟨[.str "7"], .none⟩]
      _ (.str "abc") .valueError rfl rfl rfl⟩

/-- C5: for every Archive Request whose region value is an integer, the
computed region code is `D97<region>` exactly for regions 1, 2, 3, 4
and 6, and `R<region>` for every other integer region. -/
theorem C5_region_code_rule (r : Int) :
    Resolver.region_code (.int r) =
      if r = 1 ∨ r = 2 ∨ r = 3 ∨ r = 4 ∨ r = 6 then "D97" ++ toString r
      else "R" ++ toString r := by
  unfold Resolver.region_code
  by_cases h : r = 1 ∨ r = 2 ∨ r = 3 ∨ r = 4 ∨ r = 6
  · rw [if_pos h]
    rcases h with rfl | rfl | rfl | rfl | rfl <;> rfl
  · rw [if_neg h]
    push_neg at h
    obtain ⟨h1, h2, h3, h4, h6⟩ := h
    simp [pyEq, pyStr, h1, h2, h3, h4, h6]

/-- C7: the claim states that a year (or region) that is present but
does not parse as an integer is rejected with a 400-class response.
The code violates this: `if not int(body['year'])` lets the
`ValueError` of `int('abc')` escape `parse_body`, so the generic
exception handler answers 500, not 400 (a missing field is indeed
answered with 400). -/
theorem C7_nonnumeric_year_gives_500 :
    Resolver.handler resolverWorld2016 true requestBadYear
      = (⟨500, "Unexpected error occurred"⟩, []) ∧
    Resolver.handler resolverWorld2016 true requestNoYear
      = (⟨400, "Missing year attribute !"⟩, []) :=
  ⟨rfl, rfl⟩

/-- C8: the claim states that the Download Command for the request
`{year: 2016, region: 24}` carries version `"2016"`, the year as text.
The code forges `"version": year` with the raw request value, so for a
JSON-number year the emitted version is the integer 2016, which is not
the string `"2016"`. -/
theorem C8_version_is_raw_year_counterexample :
    (Resolver.handler resolverWorld2016 true request2016).2 = [cmd2016] ∧
    pyGet cmd2016 "version" = .ok (.int 2016) ∧
    (PyVal.int 2016 ≠ PyVal.str "2016") :=
  ⟨rfl, rfl, by simp⟩

/-- C8 (amended): for the Archive Request `{year: 2016, region: 24}`
against a catalog yielding exactly one matching 7z link, the Resolver
emits one Download Command whose sourceID is `lpis:fr:R24` and whose
version field is the year value exactly as received — the number 2016
for this request (it would be text only if the request itself supplied
the year as a string). -/
theorem C8_download_command_amended :
    Resolver.handler resolverWorld2016 true request2016
      = (⟨200, "Archive https://wxs.ign.fr/RPG_2-0__SHP_LAMB93_R24-2016_2016-01-01.7z successfully submitted for ingestion"⟩,
        [cmd2016]) ∧
    pyGet cmd2016 "sourceID" = .ok (.str "lpis:fr:R24") ∧
    pyGet cmd2016 "version" = .ok (.int 2016) :=
  ⟨rfl, rfl, rfl⟩
